import Mathlib

/-!
Verification development for the Chill Panda voice pipeline.

Shallow embedding of the voice-usage metering subsystem
(src/lib_voice_usage/voice_usage_tracker.py, src/lib_voice_usage/abuse_detector.py,
src/lib_database/voice_usage_models.py, src/lib_database/voice_usage_repository.py,
src/lib_database/voice_management_repository.py) and of the TTS clients
(src/lib_tts/text_to_speech_deepgram.py, src/lib_tts/text_to_speech_minimax.py).

Python strings are modelled as lists of characters; dispatcher broadcasts and
fire-and-forget database writes are modelled as explicit output lists of events
and database operations.  Fallible operations (base64 decoding, repository
calls) are modelled as Except-valued inputs, mirroring the try/except blocks
that surround them in the source.
-/

namespace ChillPanda

/-! ### Python string helpers

These model the Python primitives used by the TTS smart-buffering code:
str.strip, str.split (whitespace mode) and the regular-expression tests
used in text_to_speech_deepgram.py and text_to_speech_minimax.py. -/

/-- Model of Python str.strip: drop leading and trailing whitespace. -/
def pyStrip (s : List Char) : List Char :=
  ((s.dropWhile Char.isWhitespace).reverse.dropWhile Char.isWhitespace).reverse

/-- Model of Python str.split with no argument: the maximal non-whitespace runs. -/
def pyWords (s : List Char) : List (List Char) :=
  (s.splitOnP Char.isWhitespace).filter (fun w => w ≠ [])

/-- Number of whitespace-separated words, as in len(text.split()). -/
def pyWordCount (s : List Char) : Nat := (pyWords s).length

/-- Model of _is_sentence_end: the regular expression search for a character
of the class period, exclamation mark or question mark followed by optional
whitespace at the end of the stripped text.  On stripped text this holds
exactly when the last character is one of the three. -/
def isSentenceEnd (s : List Char) : Bool :=
  match (pyStrip s).getLast? with
  | some c => c == '.' || c == '!' || c == '?'
  | none => false

/-- Model of TextToSpeechMinimax._is_pause_point: same search with the larger
character class that also has comma, semicolon and colon. -/
def isPausePoint (s : List Char) : Bool :=
  match (pyStrip s).getLast? with
  | some c => c == '.' || c == '!' || c == '?' || c == ',' || c == ';' || c == ':'
  | none => false

/-- Model of TextToSpeechMinimax._is_too_short: fewer than 2 words after strip.
Stripping does not change the word count, so the plain word count is used. -/
def isTooShort (s : List Char) : Bool := pyWordCount s < 2

/-! ### Voice usage data model (src/lib_database/voice_usage_models.py) -/

/-- VoiceLimitType enum from voice_usage_models.py. -/
inductive VoiceLimitType where
  | session
  | daily
  | monthly
  deriving DecidableEq, Repr

/-- The string value of the enum member, as stored and broadcast. -/
def VoiceLimitType.value : VoiceLimitType → List Char
  | .session => ("session").toList
  | .daily => ("daily").toList
  | .monthly => ("monthly").toList

/-- AbuseEventType enum from voice_usage_models.py. -/
inductive AbuseEventType where
  | excessiveContinuousUse
  | rapidReconnection
  | longSessionNoBreaks
  deriving DecidableEq, Repr

/-- Dispatcher messages that the voice subsystem and the TTS clients broadcast
to the session topic.  The constructors mirror the MessageType members used by
the code under src/ (VOICE_USAGE_WARNING, VOICE_LIMIT_REACHED, VOICE_DISABLED,
CALL_WEBSOCKET_PUT carrying audio, CLEAR_EXISTING_BUFFER).  The spec in
addition lists an ABUSE_DETECTED client event; the constructor is included in
the vocabulary so that statements about it can be made, but no function of
this embedding produces it because no code under src/ broadcasts such a
message. -/
inductive Event where
  | voiceUsageWarning (limitType : VoiceLimitType) (limitMs : Nat) (usedMs : Nat)
      (remainingMs : Int)
  | voiceLimitReached (limitType : VoiceLimitType) (limitMinutes : Nat) (usedMs : Nat)
  | voiceDisabled (reason : List Char)
  | callWebsocketPut (audioBytes : List Nat)
  | clearExistingBuffer (source : Option (List Char))
  | abuseDetected (eventType : AbuseEventType)
  deriving DecidableEq, Repr

/-- Fire-and-forget persistence operations scheduled by the tracker and the
abuse detector (methods of VoiceUsageRepository in
src/lib_database/voice_usage_repository.py, plus
VoiceAbuseDetector.track_activity). -/
inductive DbOp where
  | createSession
  | incrementDailySessionCount
  | incrementMonthlySessionCount
  | updateSessionUsage (durationMs : Nat) (chunkCount : Nat)
  | updateDailyUsage (durationMs : Nat)
  | updateMonthlyUsage (durationMs : Nat)
  | recordLimitEvent (limitType : VoiceLimitType)
  | markSessionLimitReached (limitType : VoiceLimitType)
  | incrementDailyLimitReached
  | recordAbuseEvent (eventType : AbuseEventType) (sessionCount : Nat) (windowSeconds : Nat)
  | trackActivity (durationMs : Nat)
  deriving DecidableEq, Repr

/-! ### UserVoiceUsageSummary (src/lib_database/voice_usage_models.py)

The limit fields are typed int in the dataclass but
VoiceUsageTracker._create_unlimited_summary assigns the float infinity to
them; an absent value (none) encodes that infinity, under which no finite
duration ever reaches the limit. -/

/-- UserVoiceUsageSummary dataclass. -/
structure UserVoiceUsageSummary where
  session_duration_ms : Nat
  daily_duration_ms : Nat
  monthly_duration_ms : Nat
  session_limit_ms : Option Nat
  daily_limit_ms : Option Nat
  monthly_limit_ms : Option Nat
  voice_enabled : Bool
  limit_reached : Option VoiceLimitType
  deriving DecidableEq, Repr

/-- Comparison duration_ms at or above limit, where the limit none (infinity)
is never reached. -/
def limitReachedBy : Option Nat → Nat → Bool
  | none, _ => false
  | some l, d => l ≤ d

/-- UserVoiceUsageSummary.check_limits: session, then daily, then monthly. -/
def UserVoiceUsageSummary.checkLimits (s : UserVoiceUsageSummary) : Option VoiceLimitType :=
  if limitReachedBy s.session_limit_ms s.session_duration_ms then some .session
  else if limitReachedBy s.daily_limit_ms s.daily_duration_ms then some .daily
  else if limitReachedBy s.monthly_limit_ms s.monthly_duration_ms then some .monthly
  else none

/-- VoiceUsageTracker._create_unlimited_summary: zero durations, infinite
limits, voice enabled, no limit reached. -/
def createUnlimitedSummary : UserVoiceUsageSummary :=
  { session_duration_ms := 0
    daily_duration_ms := 0
    monthly_duration_ms := 0
    session_limit_ms := none
    daily_limit_ms := none
    monthly_limit_ms := none
    voice_enabled := true
    limit_reached := none }

/-! ### VoiceUsageTracker state (src/lib_voice_usage/voice_usage_tracker.py) -/

/-- The mutable per-session state of VoiceUsageTracker (fields set in
__init__ and updated by the methods). -/
structure VoiceUsageTracker where
  enabled : Bool
  voice_enabled : Bool
  limit_reached : Option VoiceLimitType
  session_duration_ms : Nat
  daily_duration_ms : Nat
  monthly_duration_ms : Nat
  session_limit_minutes : Nat
  daily_limit_minutes : Nat
  monthly_limit_minutes : Nat
  session_limit_ms : Nat
  daily_limit_ms : Nat
  monthly_limit_ms : Nat
  session_warning_ms : Nat
  daily_warning_ms : Nat
  monthly_warning_ms : Nat
  session_warning_sent : Bool
  daily_warning_sent : Bool
  monthly_warning_sent : Bool
  has_abuse_detector : Bool
  deriving DecidableEq, Repr

/-- VoiceUsageTracker.__init__ for configured minute limits.  Limits are
minutes times 60000 ms.  The warning thresholds are written
int(limit_ms * 0.8) in the source; for limit_ms a multiple of 60000 the IEEE
double product rounds to the exact integer, so the threshold equals
minutes * 48000. -/
def mkVoiceUsageTracker (enabled abuseDetection : Bool)
    (sessionMin dailyMin monthlyMin : Nat) : VoiceUsageTracker :=
  { enabled := enabled
    voice_enabled := true
    limit_reached := none
    session_duration_ms := 0
    daily_duration_ms := 0
    monthly_duration_ms := 0
    session_limit_minutes := sessionMin
    daily_limit_minutes := dailyMin
    monthly_limit_minutes := monthlyMin
    session_limit_ms := sessionMin * 60000
    daily_limit_ms := dailyMin * 60000
    monthly_limit_ms := monthlyMin * 60000
    session_warning_ms := sessionMin * 48000
    daily_warning_ms := dailyMin * 48000
    monthly_warning_ms := monthlyMin * 48000
    session_warning_sent := false
    daily_warning_sent := false
    monthly_warning_sent := false
    has_abuse_detector := abuseDetection }

/-- VoiceUsageTracker._check_limits: session, then daily, then monthly. -/
def VoiceUsageTracker.checkLimits (t : VoiceUsageTracker) : Option VoiceLimitType :=
  if t.session_limit_ms ≤ t.session_duration_ms then some .session
  else if t.daily_limit_ms ≤ t.daily_duration_ms then some .daily
  else if t.monthly_limit_ms ≤ t.monthly_duration_ms then some .monthly
  else none

/-- The session clause of VoiceUsageTracker._check_warnings together with the
_send_warning broadcast it performs. -/
def warnStepSession (t : VoiceUsageTracker) : VoiceUsageTracker × List Event :=
  if t.session_warning_sent = false ∧ t.session_warning_ms ≤ t.session_duration_ms then
    ({ t with session_warning_sent := true },
     [Event.voiceUsageWarning .session t.session_limit_ms t.session_duration_ms
        ((t.session_limit_ms : Int) - (t.session_duration_ms : Int))])
  else (t, [])

/-- The daily clause of VoiceUsageTracker._check_warnings. -/
def warnStepDaily (t : VoiceUsageTracker) : VoiceUsageTracker × List Event :=
  if t.daily_warning_sent = false ∧ t.daily_warning_ms ≤ t.daily_duration_ms then
    ({ t with daily_warning_sent := true },
     [Event.voiceUsageWarning .daily t.daily_limit_ms t.daily_duration_ms
        ((t.daily_limit_ms : Int) - (t.daily_duration_ms : Int))])
  else (t, [])

/-- The monthly clause of VoiceUsageTracker._check_warnings. -/
def warnStepMonthly (t : VoiceUsageTracker) : VoiceUsageTracker × List Event :=
  if t.monthly_warning_sent = false ∧ t.monthly_warning_ms ≤ t.monthly_duration_ms then
    ({ t with monthly_warning_sent := true },
     [Event.voiceUsageWarning .monthly t.monthly_limit_ms t.monthly_duration_ms
        ((t.monthly_limit_ms : Int) - (t.monthly_duration_ms : Int))])
  else (t, [])

/-- VoiceUsageTracker._check_warnings: the three clauses in order, each
setting its one-shot flag and broadcasting one VOICE_USAGE_WARNING. -/
def VoiceUsageTracker.checkWarnings (t : VoiceUsageTracker) :
    VoiceUsageTracker × List Event :=
  let r1 := warnStepSession t
  let r2 := warnStepDaily r1.1
  let r3 := warnStepMonthly r2.1
  (r3.1, r1.2 ++ r2.2 ++ r3.2)

/-- The configured minute limit for a limit type, as read by
VoiceUsageTracker._handle_limit_reached from the config map. -/
def VoiceUsageTracker.limitMinutes (t : VoiceUsageTracker) : VoiceLimitType → Nat
  | .session => t.session_limit_minutes
  | .daily => t.daily_limit_minutes
  | .monthly => t.monthly_limit_minutes

/-- The current usage in ms for a limit type, as read by
VoiceUsageTracker._handle_limit_reached (the source converts it to minutes
for display only). -/
def VoiceUsageTracker.usedMs (t : VoiceUsageTracker) : VoiceLimitType → Nat
  | .session => t.session_duration_ms
  | .daily => t.daily_duration_ms
  | .monthly => t.monthly_duration_ms

/-- VoiceUsageTracker._handle_limit_reached: broadcast VOICE_LIMIT_REACHED
then VOICE_DISABLED, and schedule _record_limit_reached, which performs
record_limit_event, mark_session_limit_reached and
increment_daily_limit_reached. -/
def VoiceUsageTracker.handleLimitReached (t : VoiceUsageTracker)
    (k : VoiceLimitType) : List Event × List DbOp :=
  ([Event.voiceLimitReached k (t.limitMinutes k) (t.usedMs k),
    Event.voiceDisabled (k.value ++ ("_limit_reached").toList)],
   [DbOp.recordLimitEvent k, DbOp.markSessionLimitReached k,
    DbOp.incrementDailyLimitReached])

/-- Result of one tracking step: the updated tracker, the allow/deny answer,
the broadcasts performed, and the persistence writes scheduled. -/
structure TrackResult where
  state : VoiceUsageTracker
  allowed : Bool
  events : List Event
  dbOps : List DbOp
  deriving DecidableEq, Repr

/-- The counter update at the top of VoiceUsageTracker._add_usage. -/
def bumpUsage (t : VoiceUsageTracker) (d : Nat) : VoiceUsageTracker :=
  { t with
    session_duration_ms := t.session_duration_ms + d
    daily_duration_ms := t.daily_duration_ms + d
    monthly_duration_ms := t.monthly_duration_ms + d }

/-- VoiceUsageTracker._add_usage: bump the three counters, check warnings
first, then limits.  On a reached limit: disable voice, record the kind,
broadcast through _handle_limit_reached and return deny without scheduling
the usage increments.  Otherwise schedule _update_database (session, daily,
monthly increments) and abuse-detector activity tracking, and return
allow. -/
def VoiceUsageTracker.addUsage (t : VoiceUsageTracker) (d : Nat) : TrackResult :=
  let t1 := bumpUsage t d
  let w := t1.checkWarnings
  match w.1.checkLimits with
  | some k =>
      let t2 := { w.1 with voice_enabled := false, limit_reached := some k }
      let h := t2.handleLimitReached k
      { state := t2, allowed := false, events := w.2 ++ h.1, dbOps := h.2 }
  | none =>
      { state := w.1, allowed := true, events := w.2,
        dbOps := [DbOp.updateSessionUsage d 1, DbOp.updateDailyUsage d,
                  DbOp.updateMonthlyUsage d] ++
                 (if w.1.has_abuse_detector then [DbOp.trackActivity d] else []) }

/-- The duration computation of VoiceUsageTracker.track_audio_chunk:
bytes_count // AUDIO_BYTES_PER_MS when the configured value is positive,
otherwise bytes_count // 32.  The config value is an int from the
environment, hence the Int parameter. -/
def durationMs (bytesPerMs : Int) (bytesCount : Nat) : Nat :=
  if 0 < bytesPerMs then bytesCount / bytesPerMs.toNat else bytesCount / 32

/-- VoiceUsageTracker.track_audio_chunk.  The decoded parameter is the result
of base64.b64decode on the blob: ok with the decoded byte count, or error
when decoding raises; the surrounding try/except returns allow on error. -/
def VoiceUsageTracker.trackAudioChunk (t : VoiceUsageTracker)
    (decoded : Except Unit Nat) (bytesPerMs : Int) : TrackResult :=
  if t.enabled = false then { state := t, allowed := true, events := [], dbOps := [] }
  else if t.voice_enabled = false then
    { state := t, allowed := false, events := [], dbOps := [] }
  else
    match decoded with
    | .error _ => { state := t, allowed := true, events := [], dbOps := [] }
    | .ok n => t.addUsage (durationMs bytesPerMs n)

/-! ### Abuse detection (src/lib_voice_usage/abuse_detector.py) -/

/-- VoiceAbuseDetector.check_on_connection.  The recent parameter is the
result of get_recent_session_count (ok n, or error when the repository call
raises — the except branch allows).  When the recent session count is at or
above the threshold, a rapid_reconnection abuse event is recorded in the
database and False is returned; otherwise True.  No dispatcher broadcast is
performed: the detector holds no dispatcher handle. -/
def checkOnConnection (recent : Except Unit Nat)
    (threshold windowSeconds : Nat) : Bool × List DbOp :=
  match recent with
  | .error _ => (true, [])
  | .ok n =>
      if threshold ≤ n then
        (false, [DbOp.recordAbuseEvent .rapidReconnection n windowSeconds])
      else (true, [])

/-! ### VoiceUsageTracker.initialize -/

/-- Result of initialize: the updated tracker, the returned summary, the
broadcasts performed and the persistence operations issued. -/
structure InitResult where
  state : VoiceUsageTracker
  summary : UserVoiceUsageSummary
  events : List Event
  dbOps : List DbOp
  deriving DecidableEq, Repr

/-- The try block of VoiceUsageTracker.initialize with every repository call
succeeding: run the abuse check when the detector is enabled (its Boolean
result is discarded and the flow continues), create the session row,
increment the daily and monthly session counts, load the summary, copy the
summary durations and flags into the tracker, and if the summary already
reports a reached limit, run _handle_limit_reached. -/
def VoiceUsageTracker.initializeTry (t : VoiceUsageTracker)
    (recent : Except Unit Nat) (threshold windowSeconds : Nat)
    (summary : UserVoiceUsageSummary) : InitResult :=
  let abuseOps :=
    if t.has_abuse_detector then (checkOnConnection recent threshold windowSeconds).2
    else []
  let ops := abuseOps ++
    [DbOp.createSession, DbOp.incrementDailySessionCount,
     DbOp.incrementMonthlySessionCount]
  let t1 := { t with
    session_duration_ms := summary.session_duration_ms
    daily_duration_ms := summary.daily_duration_ms
    monthly_duration_ms := summary.monthly_duration_ms
    voice_enabled := summary.voice_enabled
    limit_reached := summary.limit_reached }
  match summary.limit_reached with
  | some k =>
      let h := t1.handleLimitReached k
      { state := t1, summary := summary, events := h.1, dbOps := ops ++ h.2 }
  | none => { state := t1, summary := summary, events := [], dbOps := ops }

/-- VoiceUsageTracker.initialize.  When tracking is disabled the unlimited
summary is returned at once.  Otherwise the try block runs; if any
repository call in it raises (the error case), the except branch issues no
further writes or broadcasts and returns the unlimited summary so the
session is not broken. -/
def VoiceUsageTracker.initializeRun (t : VoiceUsageTracker)
    (tryResult : Except Unit InitResult) : InitResult :=
  if t.enabled = false then
    { state := t, summary := createUnlimitedSummary, events := [], dbOps := [] }
  else
    match tryResult with
    | .ok r => r
    | .error _ =>
        { state := t, summary := createUnlimitedSummary, events := [], dbOps := [] }

/-! ### Minimax TTS audio listener (src/lib_tts/text_to_speech_minimax.py) -/

/-- The audio branch of TextToSpeechMinimax._listen_for_audio: when a
provider message carries a non-empty audio payload, the bytes are broadcast
to the session as a CALL_WEBSOCKET_PUT audio message.  The method consults
no usage tracker (the class has no voice_tracker attribute) and publishes no
tracking message, so the broadcast happens regardless of any tracker
state. -/
def minimaxListenAudioStep (audioBytes : List Nat) : List Event :=
  if audioBytes ≠ [] then [Event.callWebsocketPut audioBytes] else []

/-! ### Deepgram TTS client (src/lib_tts/text_to_speech_deepgram.py) -/

/-- The mutable state of TextToSpeechDeepgram used by the buffering,
interruption and audio paths. -/
structure TextToSpeechDeepgram where
  is_interrupted : Bool
  use_smart_buffering : Bool
  word_buffer : List Char
  has_buffer_timer : Bool
  min_buffer_size : Nat
  is_flushing : Bool
  is_connected : Bool
  deriving DecidableEq, Repr

/-- Actions towards the TTS provider taken by the client logic. -/
inductive TtsAction where
  | sendText (text : List Char)
  | providerFlush
  | scheduleTimer
  deriving DecidableEq, Repr

/-- The flush decision of TextToSpeechDeepgram.add_word_to_buffer on the
buffer after appending the word: sentence end with a stripped length of at
least 10 gives reason sentence_end; otherwise a word count at or above
min_buffer_size gives reason buffer_size; otherwise no flush (the timer is
scheduled). -/
def dgFlushTrigger (buffer : List Char) (minWords : Nat) : Option (List Char) :=
  if isSentenceEnd buffer then
    if 10 ≤ (pyStrip buffer).length then some (("sentence_end").toList) else none
  else if minWords ≤ pyWordCount buffer then some (("buffer_size").toList)
  else none

/-- TextToSpeechDeepgram._flush_buffer_internal: nothing happens while a
flush is in progress or on a blank buffer; an interrupted client only drops
the buffer; otherwise the stripped buffer content is sent, the buffer is
cleared and the pending timer cancelled. -/
def dgFlushBufferInternal (s : TextToSpeechDeepgram) :
    TextToSpeechDeepgram × List TtsAction :=
  if s.is_flushing = true ∨ pyStrip s.word_buffer = [] then (s, [])
  else if s.is_interrupted then ({ s with word_buffer := [] }, [])
  else ({ s with word_buffer := [], has_buffer_timer := false },
        [TtsAction.sendText (pyStrip s.word_buffer)])

/-- TextToSpeechDeepgram.add_word_to_buffer: return at once when
interrupted; without smart buffering send the word directly; otherwise
append the word, decide with dgFlushTrigger, flush when triggered and not
already flushing, and schedule the timer when not triggered. -/
def dgAddWordToBuffer (s : TextToSpeechDeepgram) (word : List Char) :
    TextToSpeechDeepgram × List TtsAction :=
  if s.is_interrupted then (s, [])
  else if s.use_smart_buffering = false then (s, [TtsAction.sendText word])
  else
    let s1 := { s with word_buffer := s.word_buffer ++ word }
    match dgFlushTrigger s1.word_buffer s1.min_buffer_size with
    | some _ => if s1.is_flushing = false then dgFlushBufferInternal s1 else (s1, [])
    | none => ({ s1 with has_buffer_timer := true }, [TtsAction.scheduleTimer])

/-- TextToSpeechDeepgram.handle_user_interruption, the body run on each
FINAL_TRANSCRIPTION_CREATED event: set is_interrupted, clear the text buffer
under the buffer lock, cancel any pending flush timer, flush the provider
connection when one is open, and broadcast CLEAR_EXISTING_BUFFER with source
tts_interrupt. -/
def dgHandleUserInterruption (s : TextToSpeechDeepgram) :
    TextToSpeechDeepgram × List TtsAction × List Event :=
  ({ s with is_interrupted := true, word_buffer := [], has_buffer_timer := false },
   (if s.is_connected then [TtsAction.providerFlush] else []),
   [Event.clearExistingBuffer (some (("tts_interrupt").toList))])

/-- The body of TextToSpeechDeepgram.handle_llm_generated_text run on one
LLM_GENERATED_TEXT event: only when the event requires audio and carries a
non-empty words payload is the interrupted flag reset and the word fed to
the buffer (or sent directly without smart buffering). -/
def dgHandleLlmToken (s : TextToSpeechDeepgram) (words : List Char)
    (isAudioRequired : Bool) : TextToSpeechDeepgram × List TtsAction :=
  if isAudioRequired = true ∧ words ≠ [] then
    let s1 := { s with is_interrupted := false }
    if s1.use_smart_buffering then dgAddWordToBuffer s1 words
    else (s1, [TtsAction.sendText words])
  else (s, [])

/-- TextToSpeechDeepgram._on_audio_data on a decoded audio payload.
The tracker parameter is none when no voice_tracker was attached, or some b
with b the value of voice_tracker.is_voice_enabled().  An interrupted client
drops the chunk; a disabled tracker drops the chunk and sets is_interrupted;
otherwise the chunk is broadcast as CALL_WEBSOCKET_PUT, and
track_audio_chunk is scheduled exactly when a tracker is attached (the
returned Boolean). -/
def dgOnAudioData (s : TextToSpeechDeepgram) (trackerVoiceEnabled : Option Bool)
    (audioBytes : List Nat) : TextToSpeechDeepgram × List Event × Bool :=
  if s.is_interrupted then (s, [], false)
  else
    match trackerVoiceEnabled with
    | some false => ({ s with is_interrupted := true }, [], false)
    | some true => (s, [Event.callWebsocketPut audioBytes], true)
    | none => (s, [Event.callWebsocketPut audioBytes], false)

/-! ### Minimax TTS smart buffering (src/lib_tts/text_to_speech_minimax.py) -/

/-- The buffering state of TextToSpeechMinimax. -/
structure TextToSpeechMinimaxState where
  word_buffer : List Char
  is_processing : Bool
  use_smart_buffering : Bool
  min_buffer_size : Nat
  has_buffer_timer : Bool
  deriving DecidableEq, Repr

/-- The flush decision of TextToSpeechMinimax.add_word_to_buffer on the
buffer after appending the word: sentence end that is not too short (at
least 2 words) gives reason sentence_end; a sentence end that is too short
schedules the timer without considering the later clauses; otherwise a pause
point with at least 4 words gives reason pause_point; otherwise a word count
at or above min_buffer_size gives reason buffer_size; otherwise the timer is
scheduled. -/
def mmFlushTrigger (buffer : List Char) (minWords : Nat) : Option (List Char) :=
  if isSentenceEnd buffer then
    if isTooShort buffer = false then some (("sentence_end").toList) else none
  else if isPausePoint buffer = true ∧ 4 ≤ pyWordCount buffer then
    some (("pause_point").toList)
  else if minWords ≤ pyWordCount buffer then some (("buffer_size").toList)
  else none

/-- TextToSpeechMinimax._flush_buffer: nothing happens while processing or
on a blank buffer; a too-short buffer is skipped (kept) unless the reason is
forced; otherwise the stripped content is sent, the buffer cleared and the
timer cancelled. -/
def mmFlushBuffer (s : TextToSpeechMinimaxState) (reason : List Char) :
    TextToSpeechMinimaxState × List TtsAction :=
  if s.is_processing = true ∨ pyStrip s.word_buffer = [] then (s, [])
  else if isTooShort s.word_buffer = true ∧ reason ≠ ("forced").toList then (s, [])
  else ({ s with word_buffer := [], has_buffer_timer := false },
        [TtsAction.sendText (pyStrip s.word_buffer)])

/-- TextToSpeechMinimax.add_word_to_buffer: without smart buffering the word
is sent directly; while processing the word is dropped; otherwise append,
decide with mmFlushTrigger, flush on a trigger and schedule the timer
otherwise. -/
def mmAddWordToBuffer (s : TextToSpeechMinimaxState) (word : List Char) :
    TextToSpeechMinimaxState × List TtsAction :=
  if s.use_smart_buffering = false then (s, [TtsAction.sendText word])
  else if s.is_processing then (s, [])
  else
    let s1 := { s with word_buffer := s.word_buffer ++ word }
    match mmFlushTrigger s1.word_buffer s1.min_buffer_size with
    | some r => mmFlushBuffer s1 r
    | none => ({ s1 with has_buffer_timer := true }, [TtsAction.scheduleTimer])

/-! ### Daily usage persistence
(src/lib_database/voice_usage_repository.py and
src/lib_database/voice_management_repository.py) -/

/-- One row of the voice_usage_daily collection, keyed by user and date. -/
structure VoiceUsageDailyRec where
  duration_ms : Nat
  chunk_count : Nat
  session_count : Nat
  limit_reached_count : Nat
  deriving DecidableEq, Repr

/-- VoiceManagementRepository.reset_user_usage on the daily row of the
current date: a plain update (no upsert) that sets duration_ms and
chunk_count to zero; with no existing row nothing is written. -/
def resetUserDailyUsage : Option VoiceUsageDailyRec → Option VoiceUsageDailyRec
  | none => none
  | some r => some { r with duration_ms := 0, chunk_count := 0 }

/-- The effect of one scheduled persistence operation on the daily row of
the current user and date.  update_daily_usage is an upsert increment of
duration_ms and chunk_count (chunk increment 1 from the tracker call site)
whose on-insert values zero the other counters; the session-count and
limit-reached increments are upserts as well; every other operation touches
a different collection. -/
def applyDailyDbOp : Option VoiceUsageDailyRec → DbOp → Option VoiceUsageDailyRec
  | none, .updateDailyUsage d =>
      some { duration_ms := d, chunk_count := 1, session_count := 0,
             limit_reached_count := 0 }
  | some r, .updateDailyUsage d =>
      some { r with duration_ms := r.duration_ms + d,
                    chunk_count := r.chunk_count + 1 }
  | none, .incrementDailySessionCount =>
      some { duration_ms := 0, chunk_count := 0, session_count := 1,
             limit_reached_count := 0 }
  | some r, .incrementDailySessionCount =>
      some { r with session_count := r.session_count + 1 }
  | none, .incrementDailyLimitReached =>
      some { duration_ms := 0, chunk_count := 0, session_count := 0,
             limit_reached_count := 1 }
  | some r, .incrementDailyLimitReached =>
      some { r with limit_reached_count := r.limit_reached_count + 1 }
  | r, _ => r

/-- Apply a list of scheduled operations to the daily row. -/
def applyDailyDbOps (r : Option VoiceUsageDailyRec) (ops : List DbOp) :
    Option VoiceUsageDailyRec :=
  ops.foldl applyDailyDbOp r

/-- The duration stored on the daily row, zero when no row exists. -/
def dailyDurationOf : Option VoiceUsageDailyRec → Nat
  | none => 0
  | some r => r.duration_ms

/-! ### Derived notions used in statements -/

/-- The VOICE_USAGE_WARNING broadcast by _send_warning for the session
period: limit, usage and their difference in ms (the source divides by 60000
for display). -/
def sessionWarningEvent (t : VoiceUsageTracker) : Event :=
  Event.voiceUsageWarning .session t.session_limit_ms t.session_duration_ms
    ((t.session_limit_ms : Int) - (t.session_duration_ms : Int))

/-- The VOICE_USAGE_WARNING broadcast by _send_warning for the daily period. -/
def dailyWarningEvent (t : VoiceUsageTracker) : Event :=
  Event.voiceUsageWarning .daily t.daily_limit_ms t.daily_duration_ms
    ((t.daily_limit_ms : Int) - (t.daily_duration_ms : Int))

/-- The VOICE_USAGE_WARNING broadcast by _send_warning for the monthly period. -/
def monthlyWarningEvent (t : VoiceUsageTracker) : Event :=
  Event.voiceUsageWarning .monthly t.monthly_limit_ms t.monthly_duration_ms
    ((t.monthly_limit_ms : Int) - (t.monthly_duration_ms : Int))

/-- Whether an event is a VOICE_USAGE_WARNING for the given period. -/
def Event.isWarningFor (p : VoiceLimitType) : Event → Bool
  | .voiceUsageWarning q _ _ _ => q == p
  | _ => false

/-- Whether an event is a VOICE_USAGE_WARNING for any period. -/
def Event.isWarning : Event → Bool
  | .voiceUsageWarning _ _ _ _ => true
  | _ => false

/-- Whether an event is an ABUSE_DETECTED message. -/
def Event.isAbuseDetected : Event → Bool
  | .abuseDetected _ => true
  | _ => false

/-- Number of VOICE_USAGE_WARNING events for a period in a broadcast list. -/
def warningCount (p : VoiceLimitType) (es : List Event) : Nat :=
  es.countP (Event.isWarningFor p)

/-- The one-shot warning flag of the tracker for a period. -/
def warningFlag (p : VoiceLimitType) (t : VoiceUsageTracker) : Bool :=
  match p with
  | .session => t.session_warning_sent
  | .daily => t.daily_warning_sent
  | .monthly => t.monthly_warning_sent

/-- The warning threshold of the tracker for a period. -/
def warningThreshold (p : VoiceLimitType) (t : VoiceUsageTracker) : Nat :=
  match p with
  | .session => t.session_warning_ms
  | .daily => t.daily_warning_ms
  | .monthly => t.monthly_warning_ms

/-- The limit of the tracker for a period, in ms. -/
def limitOf (p : VoiceLimitType) (t : VoiceUsageTracker) : Nat :=
  match p with
  | .session => t.session_limit_ms
  | .daily => t.daily_limit_ms
  | .monthly => t.monthly_limit_ms

/-! ### Iterated tracking -/

/-- Feed a list of chunks (decoded byte counts or decode failures) through
track_audio_chunk, threading the tracker state and collecting all
broadcasts. -/
def runChunks (t : VoiceUsageTracker) (chunks : List (Except Unit Nat))
    (bytesPerMs : Int) : VoiceUsageTracker × List Event :=
  match chunks with
  | [] => (t, [])
  | c :: cs =>
      let r := t.trackAudioChunk c bytesPerMs
      let rest := runChunks r.state cs bytesPerMs
      (rest.1, r.events ++ rest.2)

/-! ## Supporting lemmas -/

theorem warnStepSession_fst (t : VoiceUsageTracker) :
    (warnStepSession t).1 = { t with session_warning_sent :=
      t.session_warning_sent || decide (t.session_warning_ms ≤ t.session_duration_ms) } := by
  unfold warnStepSession
  split_ifs with h
  · rw [h.1]
    simp [h.2]
  · have hb : (t.session_warning_sent
        || decide (t.session_warning_ms ≤ t.session_duration_ms)) = t.session_warning_sent := by
      rcases hv : t.session_warning_sent
      · simp only [not_and] at h
        have hn : ¬ (t.session_warning_ms ≤ t.session_duration_ms) := h hv
        simp [hn]
      · simp
    rw [hb]

theorem warnStepDaily_fst (t : VoiceUsageTracker) :
    (warnStepDaily t).1 = { t with daily_warning_sent :=
      t.daily_warning_sent || decide (t.daily_warning_ms ≤ t.daily_duration_ms) } := by
  unfold warnStepDaily
  split_ifs with h
  · rw [h.1]
    simp [h.2]
  · have hb : (t.daily_warning_sent
        || decide (t.daily_warning_ms ≤ t.daily_duration_ms)) = t.daily_warning_sent := by
      rcases hv : t.daily_warning_sent
      · simp only [not_and] at h
        have hn : ¬ (t.daily_warning_ms ≤ t.daily_duration_ms) := h hv
        simp [hn]
      · simp
    rw [hb]

theorem warnStepMonthly_fst (t : VoiceUsageTracker) :
    (warnStepMonthly t).1 = { t with monthly_warning_sent :=
      t.monthly_warning_sent || decide (t.monthly_warning_ms ≤ t.monthly_duration_ms) } := by
  unfold warnStepMonthly
  split_ifs with h
  · rw [h.1]
    simp [h.2]
  · have hb : (t.monthly_warning_sent
        || decide (t.monthly_warning_ms ≤ t.monthly_duration_ms)) = t.monthly_warning_sent := by
      rcases hv : t.monthly_warning_sent
      · simp only [not_and] at h
        have hn : ¬ (t.monthly_warning_ms ≤ t.monthly_duration_ms) := h hv
        simp [hn]
      · simp
    rw [hb]

theorem checkWarnings_fst (t : VoiceUsageTracker) :
    (t.checkWarnings).1 = { t with
      session_warning_sent :=
        t.session_warning_sent || decide (t.session_warning_ms ≤ t.session_duration_ms),
      daily_warning_sent :=
        t.daily_warning_sent || decide (t.daily_warning_ms ≤ t.daily_duration_ms),
      monthly_warning_sent :=
        t.monthly_warning_sent || decide (t.monthly_warning_ms ≤ t.monthly_duration_ms) } := by
  unfold VoiceUsageTracker.checkWarnings
  simp only [warnStepSession_fst, warnStepDaily_fst, warnStepMonthly_fst]

theorem warnStepSession_snd (t : VoiceUsageTracker) :
    (warnStepSession t).2 =
      if t.session_warning_sent = false ∧ t.session_warning_ms ≤ t.session_duration_ms then
        [sessionWarningEvent t] else [] := by
  unfold warnStepSession sessionWarningEvent
  split_ifs <;> rfl

theorem warnStepDaily_snd (t : VoiceUsageTracker) :
    (warnStepDaily t).2 =
      if t.daily_warning_sent = false ∧ t.daily_warning_ms ≤ t.daily_duration_ms then
        [dailyWarningEvent t] else [] := by
  unfold warnStepDaily dailyWarningEvent
  split_ifs <;> rfl

theorem warnStepMonthly_snd (t : VoiceUsageTracker) :
    (warnStepMonthly t).2 =
      if t.monthly_warning_sent = false ∧ t.monthly_warning_ms ≤ t.monthly_duration_ms then
        [monthlyWarningEvent t] else [] := by
  unfold warnStepMonthly monthlyWarningEvent
  split_ifs <;> rfl

theorem checkWarnings_snd (t : VoiceUsageTracker) :
    (t.checkWarnings).2 =
      (if t.session_warning_sent = false ∧ t.session_warning_ms ≤ t.session_duration_ms then
        [sessionWarningEvent t] else []) ++
      (if t.daily_warning_sent = false ∧ t.daily_warning_ms ≤ t.daily_duration_ms then
        [dailyWarningEvent t] else []) ++
      (if t.monthly_warning_sent = false ∧ t.monthly_warning_ms ≤ t.monthly_duration_ms then
        [monthlyWarningEvent t] else []) := by
  unfold VoiceUsageTracker.checkWarnings
  simp only [warnStepSession_fst, warnStepDaily_fst, warnStepSession_snd, warnStepDaily_snd,
    warnStepMonthly_snd, sessionWarningEvent, dailyWarningEvent, monthlyWarningEvent]

theorem checkLimits_checkWarnings (t : VoiceUsageTracker) :
    ((t.checkWarnings).1).checkLimits = t.checkLimits := by
  rw [checkWarnings_fst]
  unfold VoiceUsageTracker.checkLimits
  rfl

theorem addUsage_state_durations (t : VoiceUsageTracker) (d : Nat) :
    (t.addUsage d).state.session_duration_ms = t.session_duration_ms + d ∧
    (t.addUsage d).state.daily_duration_ms = t.daily_duration_ms + d ∧
    (t.addUsage d).state.monthly_duration_ms = t.monthly_duration_ms + d := by
  unfold VoiceUsageTracker.addUsage
  simp only [checkWarnings_fst]
  split <;> simp [bumpUsage]

theorem bumpUsage_warningFlag (t : VoiceUsageTracker) (d : Nat) (p : VoiceLimitType) :
    warningFlag p (bumpUsage t d) = warningFlag p t := by
  cases p <;> simp [warningFlag, bumpUsage]

theorem bumpUsage_warningThreshold (t : VoiceUsageTracker) (d : Nat) (p : VoiceLimitType) :
    warningThreshold p (bumpUsage t d) = warningThreshold p t := by
  cases p <;> simp [warningThreshold, bumpUsage]

theorem bumpUsage_usedMs (t : VoiceUsageTracker) (d : Nat) (p : VoiceLimitType) :
    (bumpUsage t d).usedMs p = t.usedMs p + d := by
  cases p <;> simp [VoiceUsageTracker.usedMs, bumpUsage]

theorem bumpUsage_limitOf (t : VoiceUsageTracker) (d : Nat) (p : VoiceLimitType) :
    limitOf p (bumpUsage t d) = limitOf p t := by
  cases p <;> simp [limitOf, bumpUsage]

theorem warningCount_checkWarnings (t : VoiceUsageTracker) (p : VoiceLimitType) :
    warningCount p (t.checkWarnings).2 =
      if warningFlag p t = false ∧ warningThreshold p t ≤ t.usedMs p then 1 else 0 := by
  rw [checkWarnings_snd]
  cases p <;>
    (unfold warningCount warningFlag warningThreshold VoiceUsageTracker.usedMs
     split_ifs <;>
       simp_all [Event.isWarningFor, sessionWarningEvent, dailyWarningEvent,
         monthlyWarningEvent, List.countP_append, List.countP_cons, List.countP_nil,
         beq_iff_eq])

theorem checkWarnings_mem_content (t : VoiceUsageTracker) (p : VoiceLimitType)
    (lim used : Nat) (rem : Int) :
    Event.voiceUsageWarning p lim used rem ∈ (t.checkWarnings).2 →
    lim = limitOf p t ∧ used = t.usedMs p ∧
      rem = (limitOf p t : Int) - (t.usedMs p : Int) := by
  rw [checkWarnings_snd]
  intro h
  cases p <;>
    (split_ifs at h <;>
      simp_all [sessionWarningEvent, dailyWarningEvent, monthlyWarningEvent, limitOf,
        VoiceUsageTracker.usedMs])

theorem checkWarnings_all_warning (t : VoiceUsageTracker) :
    ∀ e ∈ (t.checkWarnings).2, e.isWarning = true := by
  have h : ((t.checkWarnings).2).all Event.isWarning = true := by
    rw [checkWarnings_snd]
    split_ifs <;> rfl
  exact fun e he => List.all_eq_true.mp h e he

theorem addUsage_events_split (t : VoiceUsageTracker) (d : Nat) :
    ∃ rest, (t.addUsage d).events = ((bumpUsage t d).checkWarnings).2 ++ rest ∧
      ∀ e ∈ rest, e.isWarning = false := by
  unfold VoiceUsageTracker.addUsage
  rcases hcl : (((bumpUsage t d).checkWarnings).1).checkLimits with _ | k
  · simp only [hcl]
    exact ⟨[], by simp, by simp⟩
  · simp only [hcl]
    refine ⟨_, rfl, ?_⟩
    unfold VoiceUsageTracker.handleLimitReached
    intro e he
    simp at he
    rcases he with h | h <;> subst h <;> rfl

theorem warning_isWarning_of_isWarningFor (p : VoiceLimitType) (e : Event)
    (h : Event.isWarningFor p e = true) : e.isWarning = true := by
  cases e <;> simp_all [Event.isWarningFor, Event.isWarning]

theorem addUsage_warningCount (t : VoiceUsageTracker) (d : Nat) (p : VoiceLimitType) :
    warningCount p (t.addUsage d).events =
      if warningFlag p t = false ∧ warningThreshold p t ≤ t.usedMs p + d then 1 else 0 := by
  obtain ⟨rest, hsplit, hrest⟩ := addUsage_events_split t d
  rw [hsplit]
  unfold warningCount
  rw [List.countP_append]
  have h2 : List.countP (Event.isWarningFor p) rest = 0 := by
    rw [List.countP_eq_zero]
    intro a ha hwa
    have hw := hrest a ha
    rw [warning_isWarning_of_isWarningFor p a hwa] at hw
    cases hw
  rw [h2, Nat.add_zero]
  have h1 := warningCount_checkWarnings (bumpUsage t d) p
  unfold warningCount at h1
  rw [h1, bumpUsage_warningFlag, bumpUsage_warningThreshold, bumpUsage_usedMs]

theorem addUsage_warningFlag (t : VoiceUsageTracker) (d : Nat) (p : VoiceLimitType) :
    warningFlag p (t.addUsage d).state =
      (warningFlag p t || decide (warningThreshold p t ≤ t.usedMs p + d)) := by
  unfold VoiceUsageTracker.addUsage
  rcases hcl : (((bumpUsage t d).checkWarnings).1).checkLimits with _ | k <;>
    simp only [hcl] <;>
    cases p <;>
      simp [checkWarnings_fst, warningFlag, warningThreshold, VoiceUsageTracker.usedMs,
        bumpUsage]

theorem dropWhile_append_all_false {A B : List Event}
    (hA : ∀ a ∈ A, Event.isWarning a = true) (hB : ∀ b ∈ B, Event.isWarning b = false) :
    ∀ x ∈ (A ++ B).dropWhile Event.isWarning, Event.isWarning x = false := by
  induction A with
  | nil =>
      intro x hx
      cases hb : B with
      | nil => simp [hb] at hx
      | cons b bs =>
          rw [List.nil_append, hb, List.dropWhile_cons] at hx
          have hbf : Event.isWarning b = false := hB b (by simp [hb])
          rw [hbf] at hx
          simp at hx
          exact hB x (by simp [hb, hx])
  | cons a A ih =>
      intro x hx
      rw [List.cons_append, List.dropWhile_cons, hA a (by simp)] at hx
      simp at hx
      exact ih (fun a ha => hA a (by simp [ha])) x hx

theorem trackChunk_warning_step (t : VoiceUsageTracker) (c : Except Unit Nat) (bpm : Int)
    (p : VoiceLimitType) :
    warningCount p (t.trackAudioChunk c bpm).events ≤ 1 ∧
    (warningFlag p t = true →
      warningCount p (t.trackAudioChunk c bpm).events = 0 ∧
      warningFlag p (t.trackAudioChunk c bpm).state = true) ∧
    (warningCount p (t.trackAudioChunk c bpm).events = 1 →
      warningFlag p (t.trackAudioChunk c bpm).state = true) := by
  unfold VoiceUsageTracker.trackAudioChunk
  by_cases he : t.enabled = false
  · rw [if_pos he]
    simp [warningCount]
  · rw [if_neg he]
    by_cases hv : t.voice_enabled = false
    · rw [if_pos hv]
      simp [warningCount]
    · rw [if_neg hv]
      rcases c with u | n
      · simp [warningCount]
      · have hc := addUsage_warningCount t (durationMs bpm n) p
        have hf := addUsage_warningFlag t (durationMs bpm n) p
        refine ⟨?_, ?_, ?_⟩
        · rw [hc]
          split_ifs <;> simp
        · intro hflag
          constructor
          · rw [hc]
            split_ifs with hcond
            · rw [hcond.1] at hflag
              cases hflag
            · rfl
          · rw [hf, hflag]
            rfl
        · intro h1
          rw [hc] at h1
          rw [hf]
          split_ifs at h1 with hcond
          simp [hcond.2]

theorem runChunks_warningCount_zero (p : VoiceLimitType) (chunks : List (Except Unit Nat))
    (bpm : Int) :
    ∀ t, warningFlag p t = true → warningCount p (runChunks t chunks bpm).2 = 0 := by
  induction chunks with
  | nil =>
      intro t ht
      simp [runChunks, warningCount]
  | cons c cs ih =>
      intro t ht
      unfold runChunks
      have h := (trackChunk_warning_step t c bpm p).2.1 ht
      have h2 := ih (t.trackAudioChunk c bpm).state h.2
      unfold warningCount at h h2 ⊢
      simp only [List.countP_append]
      omega

theorem runChunks_warningCount_le_one (p : VoiceLimitType) (chunks : List (Except Unit Nat))
    (bpm : Int) :
    ∀ t, warningCount p (runChunks t chunks bpm).2 ≤ 1 := by
  induction chunks with
  | nil =>
      intro t
      simp [runChunks, warningCount]
  | cons c cs ih =>
      intro t
      unfold runChunks
      have hstep := trackChunk_warning_step t c bpm p
      unfold warningCount at hstep ⊢
      simp only [List.countP_append]
      rcases Nat.lt_or_ge
        (List.countP (Event.isWarningFor p) (t.trackAudioChunk c bpm).events) 1 with h | h
      · have h0 := Nat.lt_one_iff.mp h
        have hrest := ih (t.trackAudioChunk c bpm).state
        unfold warningCount at hrest
        omega
      · have h1 := le_antisymm hstep.1 h
        have hflag := hstep.2.2 h1
        have hz := runChunks_warningCount_zero p cs bpm (t.trackAudioChunk c bpm).state hflag
        unfold warningCount at hz
        omega

theorem dgFlushBufferInternal_send (s : TextToSpeechDeepgram) (txt : List Char) :
    TtsAction.sendText txt ∈ (dgFlushBufferInternal s).2 →
    txt = pyStrip s.word_buffer ∧ (dgFlushBufferInternal s).1.word_buffer = [] := by
  unfold dgFlushBufferInternal
  split_ifs <;> simp_all

theorem mmFlushBuffer_send (s : TextToSpeechMinimaxState) (r txt : List Char) :
    TtsAction.sendText txt ∈ (mmFlushBuffer s r).2 →
    txt = pyStrip s.word_buffer ∧ (mmFlushBuffer s r).1.word_buffer = [] := by
  unfold mmFlushBuffer
  split_ifs <;> simp_all

theorem dgAddWordToBuffer_interrupted_invariant (s : TextToSpeechDeepgram) (w : List Char) :
    (dgAddWordToBuffer s w).1.is_interrupted = s.is_interrupted := by
  unfold dgAddWordToBuffer
  by_cases hint : s.is_interrupted
  · simp [hint]
  · simp only [hint, Bool.false_eq_true, if_false]
    by_cases hsm : s.use_smart_buffering
    · simp only [hsm, Bool.true_eq_false, if_false]
      rcases htr : dgFlushTrigger (s.word_buffer ++ w) s.min_buffer_size with _ | r
      · simp only [htr]
      · simp only [htr]
        by_cases hfl : s.is_flushing
        · simp [hfl]
        · simp only [hfl, Bool.false_eq_true, not_false_eq_true, if_pos rfl]
          unfold dgFlushBufferInternal
          split_ifs <;> simp_all
    · simp_all

/-! ## Claim theorems -/

/-- C1 (code bug evaluation): with the tracker in the disabled state
(voice_enabled false after a reached session limit), track_audio_chunk denies
the chunk as the claim requires, yet the Minimax audio listener — the TTS
client that main.py wires into the session — broadcasts the provider audio
bytes to the client anyway: it consults no tracker and publishes no tracking
message, so OUTBOUND_AUDIO is still published after voice_enabled became
false. -/
theorem claim_c1_audio_forwarded_despite_denial :
    (({ mkVoiceUsageTracker true true 1 3 5 with
          voice_enabled := false,
          limit_reached := some VoiceLimitType.session }).trackAudioChunk
        (.ok 4096) 32).allowed = false ∧
    (({ mkVoiceUsageTracker true true 1 3 5 with
          voice_enabled := false,
          limit_reached := some VoiceLimitType.session }).trackAudioChunk
        (.ok 4096) 32).state.voice_enabled = false ∧
    minimaxListenAudioStep [1, 2, 3] = [Event.callWebsocketPut [1, 2, 3]] := by
  decide

/-- C2: limits are evaluated in the fixed priority session, then daily, then
monthly, both by the trackers private check and by the summary dataclass
check: the result is the session kind when session usage reached the session
limit, otherwise the daily kind when daily usage reached the daily limit,
otherwise the monthly kind when monthly usage reached the monthly limit,
otherwise no limit. -/
theorem claim_c2_limit_priority (t : VoiceUsageTracker) (s : UserVoiceUsageSummary) :
    (t.session_limit_ms ≤ t.session_duration_ms →
      t.checkLimits = some VoiceLimitType.session) ∧
    (t.session_duration_ms < t.session_limit_ms →
      t.daily_limit_ms ≤ t.daily_duration_ms →
      t.checkLimits = some VoiceLimitType.daily) ∧
    (t.session_duration_ms < t.session_limit_ms →
      t.daily_duration_ms < t.daily_limit_ms →
      t.monthly_limit_ms ≤ t.monthly_duration_ms →
      t.checkLimits = some VoiceLimitType.monthly) ∧
    (t.session_duration_ms < t.session_limit_ms →
      t.daily_duration_ms < t.daily_limit_ms →
      t.monthly_duration_ms < t.monthly_limit_ms →
      t.checkLimits = none) ∧
    (limitReachedBy s.session_limit_ms s.session_duration_ms = true →
      s.checkLimits = some VoiceLimitType.session) ∧
    (limitReachedBy s.session_limit_ms s.session_duration_ms = false →
      limitReachedBy s.daily_limit_ms s.daily_duration_ms = true →
      s.checkLimits = some VoiceLimitType.daily) ∧
    (limitReachedBy s.session_limit_ms s.session_duration_ms = false →
      limitReachedBy s.daily_limit_ms s.daily_duration_ms = false →
      limitReachedBy s.monthly_limit_ms s.monthly_duration_ms = true →
      s.checkLimits = some VoiceLimitType.monthly) ∧
    (limitReachedBy s.session_limit_ms s.session_duration_ms = false →
      limitReachedBy s.daily_limit_ms s.daily_duration_ms = false →
      limitReachedBy s.monthly_limit_ms s.monthly_duration_ms = false →
      s.checkLimits = none) := by
  unfold VoiceUsageTracker.checkLimits UserVoiceUsageSummary.checkLimits
  refine ⟨fun h => ?_, fun h1 h2 => ?_, fun h1 h2 h3 => ?_, fun h1 h2 h3 => ?_,
    fun h => ?_, fun h1 h2 => ?_, fun h1 h2 h3 => ?_, fun h1 h2 h3 => ?_⟩ <;>
    split_ifs <;> first | rfl | omega | simp_all

/-- C2 witness: a tracker below its session limit but at its daily limit is
reported as daily-limited. -/
theorem claim_c2_limit_priority_witness :
    ({ mkVoiceUsageTracker true true 1 3 5 with daily_duration_ms := 200000 }).checkLimits
      = some VoiceLimitType.daily :=
  (claim_c2_limit_priority
    { mkVoiceUsageTracker true true 1 3 5 with daily_duration_ms := 200000 }
    createUnlimitedSummary).2.1 (by decide) (by decide)

/-- C3: when a chunk first brings a counter to a limit (tracker enabled, voice
still enabled, and the bumped counters reach limit kind k), track_audio_chunk
returns deny, disables voice, records the limit kind, broadcasts the warnings
then VOICE_LIMIT_REACHED then VOICE_DISABLED, schedules exactly the
record_limit_event, mark_session_limit_reached and
increment_daily_limit_reached writes, and schedules none of the ordinary
session, daily or monthly usage increments. -/
theorem claim_c3_limit_transition (t : VoiceUsageTracker) (n : Nat) (bpm : Int)
    (k : VoiceLimitType)
    (he : t.enabled = true) (hv : t.voice_enabled = true)
    (hk : (bumpUsage t (durationMs bpm n)).checkLimits = some k) :
    ((t.trackAudioChunk (.ok n) bpm).allowed = false) ∧
    ((t.trackAudioChunk (.ok n) bpm).state.voice_enabled = false) ∧
    ((t.trackAudioChunk (.ok n) bpm).state.limit_reached = some k) ∧
    ((t.trackAudioChunk (.ok n) bpm).events
        = ((bumpUsage t (durationMs bpm n)).checkWarnings).2 ++
          [Event.voiceLimitReached k (t.limitMinutes k)
              (t.usedMs k + durationMs bpm n),
           Event.voiceDisabled (k.value ++ ("_limit_reached").toList)]) ∧
    ((t.trackAudioChunk (.ok n) bpm).dbOps
        = [DbOp.recordLimitEvent k, DbOp.markSessionLimitReached k,
           DbOp.incrementDailyLimitReached]) ∧
    (∀ d c, DbOp.updateSessionUsage d c ∉ (t.trackAudioChunk (.ok n) bpm).dbOps) ∧
    (∀ d, DbOp.updateDailyUsage d ∉ (t.trackAudioChunk (.ok n) bpm).dbOps) ∧
    (∀ d, DbOp.updateMonthlyUsage d ∉ (t.trackAudioChunk (.ok n) bpm).dbOps) := by
  have ht : t.trackAudioChunk (.ok n) bpm = t.addUsage (durationMs bpm n) := by
    unfold VoiceUsageTracker.trackAudioChunk
    rw [he, hv]
    simp
  have hcl : (((bumpUsage t (durationMs bpm n)).checkWarnings).1).checkLimits = some k := by
    rw [checkLimits_checkWarnings]
    exact hk
  rw [ht]
  unfold VoiceUsageTracker.addUsage
  simp only [hcl]
  unfold VoiceUsageTracker.handleLimitReached
  refine ⟨?_, ?_, ?_, ?_, ?_, ?_, ?_, ?_⟩
  · trivial
  · simp
  · simp
  · simp only [checkWarnings_fst]
    cases k <;>
      simp [VoiceUsageTracker.limitMinutes, VoiceUsageTracker.usedMs, bumpUsage]
  · trivial
  · intro d c
    simp
  · intro d
    simp
  · intro d
    simp

/-- C3 witness: a session one millisecond short of its one-minute limit is
pushed over it by a 32-byte chunk and exactly the three limit writes are
scheduled. -/
theorem claim_c3_limit_transition_witness :
    (({ mkVoiceUsageTracker true false 1 3 5 with
          session_duration_ms := 59999,
          session_warning_sent := true }).trackAudioChunk (.ok 32) 32).dbOps
      = [DbOp.recordLimitEvent VoiceLimitType.session,
         DbOp.markSessionLimitReached VoiceLimitType.session,
         DbOp.incrementDailyLimitReached] :=
  (claim_c3_limit_transition
    { mkVoiceUsageTracker true false 1 3 5 with
        session_duration_ms := 59999, session_warning_sent := true }
    32 32 VoiceLimitType.session (by decide) (by decide) (by decide)).2.2.2.2.1

/-- C4 (amended): for an enabled tracker with voice enabled and a positive
bytes-per-ms configuration, the metered duration added to every counter is
the decoded byte count divided by bytes-per-ms with integer (floor) division
and no lower bound; a zero-byte chunk is counted as 0 ms; a non-positive
configuration falls back to the divisor 32. -/
theorem claim_c4_floor_division (t : VoiceUsageTracker) (n : Nat) (bpm : Int)
    (he : t.enabled = true) (hv : t.voice_enabled = true) (hb : 0 < bpm) :
    ((t.trackAudioChunk (.ok n) bpm).state.session_duration_ms
        = t.session_duration_ms + n / bpm.toNat) ∧
    ((t.trackAudioChunk (.ok n) bpm).state.daily_duration_ms
        = t.daily_duration_ms + n / bpm.toNat) ∧
    ((t.trackAudioChunk (.ok n) bpm).state.monthly_duration_ms
        = t.monthly_duration_ms + n / bpm.toNat) ∧
    durationMs bpm 0 = 0 ∧
    (∀ m : Int, m ≤ 0 → durationMs m n = n / 32) := by
  have hd : durationMs bpm n = n / bpm.toNat := by
    unfold durationMs
    rw [if_pos hb]
  have ht : t.trackAudioChunk (.ok n) bpm = t.addUsage (n / bpm.toNat) := by
    unfold VoiceUsageTracker.trackAudioChunk
    rw [he, hv]
    simp [hd]
  refine ⟨?_, ?_, ?_, ?_, ?_⟩
  · rw [ht]
    exact (addUsage_state_durations t _).1
  · rw [ht]
    exact (addUsage_state_durations t _).2.1
  · rw [ht]
    exact (addUsage_state_durations t _).2.2
  · unfold durationMs
    split_ifs
    simp
  · intro m hm
    unfold durationMs
    rw [if_neg (by omega)]

/-- C4 witness: a 4096-byte chunk at 32 bytes per ms adds 128 ms. -/
theorem claim_c4_floor_division_witness :
    ((mkVoiceUsageTracker true true 1 3 5).trackAudioChunk
        (.ok 4096) 32).state.session_duration_ms = 0 + 4096 / (32 : Int).toNat :=
  (claim_c4_floor_division (mkVoiceUsageTracker true true 1 3 5) 4096 32
    (by decide) (by decide) (by norm_num)).1

/-- C4 counterexample: a 16-byte chunk is metered as 0 ms, not at least the
claimed lower bound of 1 ms. -/
theorem claim_c4_counterexample :
    durationMs 32 16 = 0 ∧ ¬ (1 ≤ durationMs 32 16) ∧
    ((mkVoiceUsageTracker true true 1 3 5).trackAudioChunk
        (.ok 16) 32).state.session_duration_ms = 0 := by
  decide

/-- C5: on a tracked chunk, exactly one VOICE_USAGE_WARNING for a period is
broadcast when and only when that periods flag was unset and the bumped usage
reached the warning threshold; the warning carries the periods limit, usage
and remaining time; every warning precedes every non-warning broadcast of the
step; the flag is set exactly when it was set or the threshold is now
reached; across any whole session of chunks at most one warning per period is
broadcast; and in a freshly constructed tracker the warning threshold is
exactly 0.8 of the limit. -/
theorem claim_c5_usage_warnings (t : VoiceUsageTracker) (d : Nat) (p : VoiceLimitType)
    (chunks : List (Except Unit Nat)) (bpm : Int) :
    (warningCount p (t.addUsage d).events =
      if warningFlag p t = false ∧ warningThreshold p t ≤ t.usedMs p + d then 1 else 0) ∧
    (∀ lim used rem, Event.voiceUsageWarning p lim used rem ∈ (t.addUsage d).events →
      lim = limitOf p t ∧ used = t.usedMs p + d ∧
        rem = (limitOf p t : Int) - ((t.usedMs p + d : Nat) : Int)) ∧
    (∀ e ∈ (t.addUsage d).events.dropWhile Event.isWarning, e.isWarning = false) ∧
    (warningFlag p (t.addUsage d).state =
      (warningFlag p t || decide (warningThreshold p t ≤ t.usedMs p + d))) ∧
    (warningCount p (runChunks t chunks bpm).2 ≤ 1) ∧
    (∀ (en ab : Bool) (sm dm mm : Nat),
      warningThreshold p (mkVoiceUsageTracker en ab sm dm mm) * 5 =
        limitOf p (mkVoiceUsageTracker en ab sm dm mm) * 4) := by
  refine ⟨addUsage_warningCount t d p, ?_, ?_, addUsage_warningFlag t d p,
    runChunks_warningCount_le_one p chunks bpm t, ?_⟩
  · intro lim used rem hmem
    obtain ⟨rest, hsplit, hrest⟩ := addUsage_events_split t d
    rw [hsplit] at hmem
    rcases List.mem_append.mp hmem with h | h
    · have hcc := checkWarnings_mem_content (bumpUsage t d) p lim used rem h
      rwa [bumpUsage_limitOf, bumpUsage_usedMs] at hcc
    · have hw := hrest _ h
      simp [Event.isWarning] at hw
  · obtain ⟨rest, hsplit, hrest⟩ := addUsage_events_split t d
    rw [hsplit]
    exact dropWhile_append_all_false (checkWarnings_all_warning (bumpUsage t d)) hrest
  · intro en ab sm dm mm
    cases p <;>
      (simp [warningThreshold, limitOf, mkVoiceUsageTracker]
       omega)

/-- C5 witness: a session counter at 47999 ms bumped by 1 ms crosses the
48000 ms warning threshold of the one-minute limit and the broadcast warning
carries the limit, the usage and the remaining 12000 ms. -/
theorem claim_c5_usage_warnings_witness :
    60000 = limitOf VoiceLimitType.session
        ({ mkVoiceUsageTracker true true 1 3 5 with session_duration_ms := 47999 }) ∧
      48000 = ({ mkVoiceUsageTracker true true 1 3 5 with
          session_duration_ms := 47999 } : VoiceUsageTracker).usedMs
            VoiceLimitType.session + 1 ∧
      (12000 : Int) = (limitOf VoiceLimitType.session
          ({ mkVoiceUsageTracker true true 1 3 5 with
              session_duration_ms := 47999 }) : Int) -
        ((({ mkVoiceUsageTracker true true 1 3 5 with
            session_duration_ms := 47999 } : VoiceUsageTracker).usedMs
              VoiceLimitType.session + 1 : Nat) : Int) :=
  (claim_c5_usage_warnings
    { mkVoiceUsageTracker true true 1 3 5 with session_duration_ms := 47999 }
    1 VoiceLimitType.session [] 32).2.1 60000 48000 12000 (by decide)

/-- C6 (amended): the Deepgram client flushes exactly on sentence end with at
least 10 stripped characters, else on reaching the configured word count; the
Minimax client flushes on sentence end with at least 2 words, else on a pause
point with at least 4 words, else on reaching the configured word count; in
both clients a flush from the add-word path sends the stripped buffer content
and clears the buffer, and when no trigger fires the word is appended and the
idle timer is scheduled. -/
theorem claim_c6_flush_triggers (buffer word : List Char) (minWords : Nat)
    (s : TextToSpeechDeepgram) (m : TextToSpeechMinimaxState) :
    ((dgFlushTrigger buffer minWords).isSome = true ↔
      ((isSentenceEnd buffer = true ∧ 10 ≤ (pyStrip buffer).length) ∨
       (isSentenceEnd buffer = false ∧ minWords ≤ pyWordCount buffer))) ∧
    ((mmFlushTrigger buffer minWords).isSome = true ↔
      ((isSentenceEnd buffer = true ∧ 2 ≤ pyWordCount buffer) ∨
       (isSentenceEnd buffer = false ∧ isPausePoint buffer = true ∧
        4 ≤ pyWordCount buffer) ∨
       (isSentenceEnd buffer = false ∧
        ¬ (isPausePoint buffer = true ∧ 4 ≤ pyWordCount buffer) ∧
        minWords ≤ pyWordCount buffer))) ∧
    (∀ txt, s.use_smart_buffering = true →
      TtsAction.sendText txt ∈ (dgAddWordToBuffer s word).2 →
      txt = pyStrip (s.word_buffer ++ word) ∧
      (dgAddWordToBuffer s word).1.word_buffer = []) ∧
    (∀ txt, m.use_smart_buffering = true →
      TtsAction.sendText txt ∈ (mmAddWordToBuffer m word).2 →
      txt = pyStrip (m.word_buffer ++ word) ∧
      (mmAddWordToBuffer m word).1.word_buffer = []) ∧
    (s.is_interrupted = false → s.use_smart_buffering = true →
      dgFlushTrigger (s.word_buffer ++ word) s.min_buffer_size = none →
      dgAddWordToBuffer s word
        = ({ s with word_buffer := s.word_buffer ++ word, has_buffer_timer := true },
           [TtsAction.scheduleTimer])) ∧
    (m.use_smart_buffering = true → m.is_processing = false →
      mmFlushTrigger (m.word_buffer ++ word) m.min_buffer_size = none →
      mmAddWordToBuffer m word
        = ({ m with word_buffer := m.word_buffer ++ word, has_buffer_timer := true },
           [TtsAction.scheduleTimer])) := by
  refine ⟨?_, ?_, ?_, ?_, ?_, ?_⟩
  · unfold dgFlushTrigger
    split_ifs with h1 h2 <;> simp_all
  · unfold mmFlushTrigger isTooShort
    split_ifs with h1 h2 h3 h4 <;> simp_all
  · intro txt hsm hmem
    by_cases hint : s.is_interrupted
    · simp [dgAddWordToBuffer, hint] at hmem
    · unfold dgAddWordToBuffer at hmem ⊢
      simp only [hint, hsm, Bool.false_eq_true, if_false, Bool.true_eq_false] at hmem ⊢
      rcases htr : dgFlushTrigger (s.word_buffer ++ word) s.min_buffer_size with _ | r
      · simp only [htr] at hmem
        simp at hmem
      · simp only [htr] at hmem ⊢
        by_cases hfl : s.is_flushing
        · simp [hfl] at hmem
        · simp only [hfl, Bool.false_eq_true, not_false_eq_true, if_pos rfl] at hmem ⊢
          have hsend := dgFlushBufferInternal_send _ txt hmem
          simpa using hsend
  · intro txt hsm hmem
    unfold mmAddWordToBuffer at hmem ⊢
    simp only [hsm, Bool.true_eq_false, if_false] at hmem ⊢
    by_cases hpr : m.is_processing
    · simp [hpr] at hmem
    · simp only [hpr, if_false, Bool.false_eq_true] at hmem ⊢
      rcases htr : mmFlushTrigger (m.word_buffer ++ word) m.min_buffer_size with _ | r
      · simp only [htr] at hmem
        simp at hmem
      · simp only [htr] at hmem ⊢
        have hsend := mmFlushBuffer_send _ r txt hmem
        simpa using hsend
  · intro hint hsm htr
    unfold dgAddWordToBuffer
    simp only [hint, hsm, htr, Bool.false_eq_true, Bool.true_eq_false, if_false]
  · intro hsm hpr htr
    unfold mmAddWordToBuffer
    simp only [hsm, hpr, htr, Bool.true_eq_false, Bool.false_eq_true, if_false]

/-- C6 witness: adding a word that does not complete a sentence and leaves
the buffer under the word minimum appends it and schedules the idle timer. -/
theorem claim_c6_flush_triggers_witness :
    dgAddWordToBuffer
        { is_interrupted := false, use_smart_buffering := true,
          word_buffer := ("Hi").toList, has_buffer_timer := false,
          min_buffer_size := 5, is_flushing := false, is_connected := true }
        ((" there").toList)
      = ({ is_interrupted := false, use_smart_buffering := true,
           word_buffer := (("Hi").toList ++ (" there").toList), has_buffer_timer := true,
           min_buffer_size := 5, is_flushing := false, is_connected := true },
         [TtsAction.scheduleTimer]) :=
  (claim_c6_flush_triggers [] ((" there").toList) 5
    { is_interrupted := false, use_smart_buffering := true,
      word_buffer := ("Hi").toList, has_buffer_timer := false,
      min_buffer_size := 5, is_flushing := false, is_connected := true }
    { word_buffer := [], is_processing := false, use_smart_buffering := true,
      min_buffer_size := 10, has_buffer_timer := false }).2.2.2.2.1
    (by decide) (by decide) (by decide)

/-- C6 counterexample: the Minimax client flushes the six-character sentence
Go on. (sentence end with only 2 words) and flushes on a pause point after 4
words, although the buffer has fewer than 10 characters and fewer words than
the configured minimum of 10 and no timer elapsed. -/
theorem claim_c6_counterexample :
    ((mmAddWordToBuffer
        { word_buffer := ("Go ").toList, is_processing := false,
          use_smart_buffering := true, min_buffer_size := 10,
          has_buffer_timer := false } (("on.").toList)).2
      = [TtsAction.sendText (("Go on.").toList)]) ∧
    ((pyStrip (("Go on.").toList)).length < 10) ∧
    (pyWordCount (("Go on.").toList) < 10) ∧
    ((mmAddWordToBuffer
        { word_buffer := ("one two three four").toList, is_processing := false,
          use_smart_buffering := true, min_buffer_size := 10,
          has_buffer_timer := false } ((",").toList)).2
      = [TtsAction.sendText (("one two three four,").toList)]) ∧
    (isSentenceEnd (("one two three four,").toList) = false) ∧
    (pyWordCount (("one two three four,").toList) < 10) := by
  decide

/-- C7 (amended): on a final transcript the Deepgram client sets
is_interrupted, clears the buffer, cancels the timer, broadcasts CLEAR_BUFFER
with source tts_interrupt, and sends a provider flush exactly when the
provider connection is open; while interrupted, provider audio is dropped;
the flag is cleared by the next LLM token that requires audio and carries
non-empty text, and is left unchanged by a token that does not require
audio. -/
theorem claim_c7_barge_in (s : TextToSpeechDeepgram) (w : List Char)
    (bytes : List Nat) (tr : Option Bool) :
    ((dgHandleUserInterruption s).1.is_interrupted = true) ∧
    ((dgHandleUserInterruption s).1.word_buffer = []) ∧
    ((dgHandleUserInterruption s).1.has_buffer_timer = false) ∧
    ((dgHandleUserInterruption s).2.2
        = [Event.clearExistingBuffer (some (("tts_interrupt").toList))]) ∧
    ((dgHandleUserInterruption s).2.1
        = if s.is_connected then [TtsAction.providerFlush] else []) ∧
    (s.is_interrupted = true → (dgOnAudioData s tr bytes).2.1 = []) ∧
    (w ≠ [] → (dgHandleLlmToken s w true).1.is_interrupted = false) ∧
    ((dgHandleLlmToken s w false).1.is_interrupted = s.is_interrupted) := by
  refine ⟨rfl, rfl, rfl, rfl, rfl, ?_, ?_, ?_⟩
  · intro hint
    unfold dgOnAudioData
    simp [hint]
  · intro hw
    unfold dgHandleLlmToken
    rw [if_pos ⟨rfl, hw⟩]
    by_cases hsm : s.use_smart_buffering
    · simp only [hsm, if_true]
      rw [dgAddWordToBuffer_interrupted_invariant]
    · simp [hsm]
  · unfold dgHandleLlmToken
    simp

/-- C7 witness: an interrupted client is un-interrupted by the next LLM token
that requires audio. -/
theorem claim_c7_barge_in_witness :
    (dgHandleLlmToken
        { is_interrupted := true, use_smart_buffering := true, word_buffer := [],
          has_buffer_timer := false, min_buffer_size := 5, is_flushing := false,
          is_connected := true } (("hi").toList) true).1.is_interrupted = false :=
  (claim_c7_barge_in
    { is_interrupted := true, use_smart_buffering := true, word_buffer := [],
      has_buffer_timer := false, min_buffer_size := 5, is_flushing := false,
      is_connected := true } (("hi").toList) [] none).2.2.2.2.2.2.1 (by decide)

/-- C7 counterexample: an LLM token that does not require audio leaves
is_interrupted set, and an interruption with the provider disconnected sends
no provider-level flush. -/
theorem claim_c7_counterexample :
    ((dgHandleLlmToken
        { is_interrupted := true, use_smart_buffering := true, word_buffer := [],
          has_buffer_timer := false, min_buffer_size := 5, is_flushing := false,
          is_connected := true } (("hi").toList) false).1.is_interrupted = true) ∧
    ((dgHandleUserInterruption
        { is_interrupted := false, use_smart_buffering := true,
          word_buffer := ("Hi").toList, has_buffer_timer := false,
          min_buffer_size := 5, is_flushing := false,
          is_connected := false }).2.1 = []) := by
  decide

/-- C8 (amended): for any prior daily row, resetting the user and then
tracking one allowed blob leaves the daily duration at the decoded byte
count divided by 32 with floor division. -/
theorem claim_c8_reset_then_track (rec : Option VoiceUsageDailyRec)
    (t : VoiceUsageTracker) (n : Nat)
    (he : t.enabled = true) (hv : t.voice_enabled = true)
    (hallow : (t.trackAudioChunk (.ok n) 32).allowed = true) :
    dailyDurationOf (applyDailyDbOps (resetUserDailyUsage rec)
      (t.trackAudioChunk (.ok n) 32).dbOps) = n / 32 := by
  have hd : durationMs 32 n = n / 32 := by
    unfold durationMs
    rw [if_pos (by norm_num)]
    rfl
  have ht : t.trackAudioChunk (.ok n) 32 = t.addUsage (n / 32) := by
    unfold VoiceUsageTracker.trackAudioChunk
    rw [he, hv]
    simp [hd]
  rw [ht] at hallow ⊢
  unfold VoiceUsageTracker.addUsage at hallow ⊢
  rcases hcl : (((bumpUsage t (n / 32)).checkWarnings).1).checkLimits with _ | k
  · simp only [hcl] at hallow ⊢
    by_cases hab : ((bumpUsage t (n / 32)).checkWarnings).1.has_abuse_detector
    · simp only [hab, if_true]
      cases rec <;>
        simp [applyDailyDbOps, applyDailyDbOp, resetUserDailyUsage, dailyDurationOf]
    · simp only [hab, if_false]
      cases rec <;>
        simp [applyDailyDbOps, applyDailyDbOp, resetUserDailyUsage, dailyDurationOf]
  · simp only [hcl] at hallow
    exact absurd hallow (by decide)

/-- C8 witness: after a reset, one 4096-byte chunk leaves the daily duration
at 128 ms. -/
theorem claim_c8_reset_then_track_witness :
    dailyDurationOf (applyDailyDbOps
      (resetUserDailyUsage (some ⟨500, 3, 1, 0⟩))
      ((mkVoiceUsageTracker true true 1 3 5).trackAudioChunk (.ok 4096) 32).dbOps)
      = 4096 / 32 :=
  claim_c8_reset_then_track (some ⟨500, 3, 1, 0⟩) (mkVoiceUsageTracker true true 1 3 5)
    4096 (by decide) (by decide) (by decide)

/-- C8 counterexample: a 33-byte blob yields a daily duration of 1 ms (floor)
where the claimed ceiling would be 2 ms. -/
theorem claim_c8_counterexample :
    (dailyDurationOf (applyDailyDbOps
      (resetUserDailyUsage (some ⟨500, 3, 1, 0⟩))
      ((mkVoiceUsageTracker true true 1 3 5).trackAudioChunk (.ok 33) 32).dbOps) = 1) ∧
    ((33 + 31) / 32 = 2) := by
  decide

/-- C9 (amended): on session start with the recent session count at or above
the threshold, a rapid_reconnection abuse event is recorded, the session
still proceeds (the session row is created and the session counters are
incremented), and no ABUSE_DETECTED event is broadcast to the session. -/
theorem claim_c9_rapid_reconnection (t : VoiceUsageTracker) (n thr win : Nat)
    (sum : UserVoiceUsageSummary)
    (hd : t.has_abuse_detector = true) (hn : thr ≤ n) :
    (DbOp.recordAbuseEvent .rapidReconnection n win
        ∈ (t.initializeTry (.ok n) thr win sum).dbOps) ∧
    (DbOp.createSession ∈ (t.initializeTry (.ok n) thr win sum).dbOps) ∧
    (DbOp.incrementDailySessionCount ∈ (t.initializeTry (.ok n) thr win sum).dbOps) ∧
    (DbOp.incrementMonthlySessionCount ∈ (t.initializeTry (.ok n) thr win sum).dbOps) ∧
    (∀ e ∈ (t.initializeTry (.ok n) thr win sum).events, e.isAbuseDetected = false) ∧
    ((checkOnConnection (.ok n) thr win).2
        = [DbOp.recordAbuseEvent .rapidReconnection n win]) := by
  unfold VoiceUsageTracker.initializeTry checkOnConnection
  simp only [hd, if_pos hn, if_true]
  rcases hsum : sum.limit_reached with _ | k
  · simp
  · unfold VoiceUsageTracker.handleLimitReached
    simp [Event.isAbuseDetected]

/-- C9 witness: an eleventh session inside the window still creates its
session row. -/
theorem claim_c9_rapid_reconnection_witness :
    DbOp.createSession ∈
      ((mkVoiceUsageTracker true true 1 3 5).initializeTry (.ok 11) 10 300
        createUnlimitedSummary).dbOps :=
  (claim_c9_rapid_reconnection (mkVoiceUsageTracker true true 1 3 5) 11 10 300
    createUnlimitedSummary (by decide) (by decide)).2.1

/-- C9 counterexample: at 11 recent sessions the abuse event is recorded and
the session proceeds, but the initialization broadcasts no event at all, so
no ABUSE_DETECTED message reaches the session. -/
theorem claim_c9_counterexample :
    (DbOp.recordAbuseEvent .rapidReconnection 11 300
        ∈ ((mkVoiceUsageTracker true true 1 3 5).initializeTry (.ok 11) 10 300
            createUnlimitedSummary).dbOps) ∧
    (DbOp.createSession ∈ ((mkVoiceUsageTracker true true 1 3 5).initializeTry
        (.ok 11) 10 300 createUnlimitedSummary).dbOps) ∧
    (((mkVoiceUsageTracker true true 1 3 5).initializeTry (.ok 11) 10 300
        createUnlimitedSummary).events = []) := by
  decide

/-- C10: the metering subsystem fails open: a failing initialization returns
the unlimited summary with voice enabled and no limit reachable, performs no
further writes or broadcasts; a failing chunk decode is allowed and leaves
the tracker unchanged; a failing recent-session query allows the connection
and records nothing. -/
theorem claim_c10_fail_open (t : VoiceUsageTracker) (thr win : Nat) (bpm : Int)
    (hv : t.voice_enabled = true) :
    ((t.initializeRun (.error ())).summary = createUnlimitedSummary) ∧
    ((t.initializeRun (.error ())).summary.voice_enabled = true) ∧
    ((t.initializeRun (.error ())).summary.checkLimits = none) ∧
    ((t.initializeRun (.error ())).events = []) ∧
    ((t.initializeRun (.error ())).dbOps = []) ∧
    ((t.trackAudioChunk (.error ()) bpm).allowed = true) ∧
    ((t.trackAudioChunk (.error ()) bpm).state = t) ∧
    ((t.trackAudioChunk (.error ()) bpm).events = []) ∧
    (checkOnConnection (.error ()) thr win = (true, [])) := by
  refine ⟨?_, ?_, ?_, ?_, ?_, ?_, ?_, ?_, ?_⟩ <;>
    first
      | (unfold VoiceUsageTracker.initializeRun
         split_ifs <;> rfl)
      | (unfold VoiceUsageTracker.trackAudioChunk
         rw [hv]
         split_ifs <;> simp_all)
      | rfl

/-- C10 witness: with a fresh enabled tracker, a failing decode is allowed
and a failing abuse query allows the connection. -/
theorem claim_c10_fail_open_witness :
    (((mkVoiceUsageTracker true true 1 3 5).trackAudioChunk (.error ()) 32).allowed
        = true) ∧
    (checkOnConnection (.error ()) 10 300 = (true, [])) :=
  ⟨(claim_c10_fail_open (mkVoiceUsageTracker true true 1 3 5) 10 300 32
      (by decide)).2.2.2.2.2.1,
   (claim_c10_fail_open (mkVoiceUsageTracker true true 1 3 5) 10 300 32
      (by decide)).2.2.2.2.2.2.2.2⟩

end ChillPanda
